import Mathlib

/-!
Shallow embedding of the VERO patient-input page
(`app/pages/1_Patient_Input.py`) and of the data-source logic it uses.

Modelling conventions:
* Python values flowing through patient records are modelled by `Value`:
  `vNone` stands for both Python `None` and a pandas NaN (the two cases
  `_is_missing` recognises), `vInt`/`vFloat` for Python `int`/`float`
  (floats as exact rationals: every float observable here comes from a
  decimal literal in a cell or from `float`/`int` parsing of decimal text,
  and Python prints floats with the shortest decimal that round-trips,
  which the rational-with-decimal-printing model reproduces), and `vStr`
  for `str`.
* Python dicts keyed by strings are association lists with first-key
  lookup; insertion overwrites in place and appends new keys at the end,
  exactly like dict assignment, so insertion order is preserved.
* `float(...)`/`int(...)` string parsing is modelled for decimal syntax
  (optional sign, digits, optional decimal point).  Exponent notation,
  underscores in numerals, and `inf`/`nan` literals are not modelled; no
  theorem below depends on them.
* Streamlit session state relevant to the claims is the `SState`
  structure; one full script run of the page body is `pageRun` /
  `patientInputPage`, with `st.stop` modelled as a `PageHalt` outcome.
-/

namespace VERO

/-- A Python value as stored in patient records and dataset cells. -/
inductive Value where
  | vNone : Value
  | vInt : Int → Value
  | vFloat : ℚ → Value
  | vStr : String → Value
deriving DecidableEq, Repr

/-- `_is_missing`: `True` for `None` and NaN, `False` for every other value
(`pd.isna` of a string or a number is `False`). -/
def is_missing : Value → Bool
  | .vNone => true
  | _ => false

/-- Python's default `str.strip()` character set: space, tab, newline,
carriage return, vertical tab, form feed. -/
def isPySpace (c : Char) : Bool :=
  c == ' ' || c == '\t' || c == '\n' || c == '\r' || c == '\x0b' || c == '\x0c'

/-- Python `str.strip()`: drop leading and trailing whitespace.  Structural
recursion over the character list, so proofs can evaluate it. -/
def pyStrip (s : String) : String :=
  String.mk (((s.data.dropWhile isPySpace).reverse.dropWhile isPySpace).reverse)

/-- Smallest exponent `k ≤ 30` with `d ∣ 10 ^ k`, if any: the fractional
digit count needed to print a decimal-representable rational exactly. -/
def decExp (d : Nat) : Option Nat :=
  (List.range 31).find? (fun k => 10 ^ k % d = 0)

/-- Left-pad a digit string with zeros to width `k`. -/
def padZeros (s : String) (k : Nat) : String :=
  if s.length ≥ k then s else String.mk (List.replicate (k - s.length) '0') ++ s

/-- Python `str` of a float, for decimal-representable rationals (the only
floats the page produces): shortest decimal form, with `.0` on integers. -/
def floatToText (q : ℚ) : String :=
  if q.den = 1 then toString q.num ++ ".0"
  else
    match decExp q.den with
    | some k =>
      let sign := if q < 0 then "-" else ""
      let n := (|q| * (10 : ℚ) ^ k).num.toNat
      sign ++ toString (n / 10 ^ k) ++ "." ++ padZeros (toString (n % 10 ^ k)) k
    | none => toString q.num ++ "/" ++ toString q.den

/-- Python `str(v)` (after `_clean_scalar`, which is the identity in this
model since numpy scalars are already plain values here). -/
def valueToText : Value → String
  | .vNone => "None"
  | .vInt n => toString n
  | .vFloat q => floatToText q
  | .vStr s => s

/-- pandas `.astype(str)` of a cell: NaN prints as `"nan"`. -/
def pandasStr : Value → String
  | .vNone => "nan"
  | v => valueToText v

/-- `_as_text`: safe string for text_input session state. -/
def as_text (v : Value) : String :=
  if is_missing v then "" else valueToText v

/-- Digits-only parse shared by `int(...)` and `float(...)`: succeeds
exactly on nonempty all-digit strings. -/
def digitsToNat (cs : List Char) : Option Nat :=
  if cs = [] then none
  else if cs.all (fun c => c.isDigit) then
    some (cs.foldl (fun a c => a * 10 + (c.toNat - 48)) 0)
  else none

/-- Split a character list at every dot. -/
def splitDotGo : List Char → List Char → List (List Char)
  | [], acc => [acc.reverse]
  | c :: rest, acc =>
    if c = '.' then acc.reverse :: splitDotGo rest [] else splitDotGo rest (c :: acc)

/-- Unsigned decimal numeral: digits with at most one dot, not reduced to a
bare dot (Python accepts `1.`, `.5`, rejects `.`). -/
def parseDecChars (cs : List Char) : Option ℚ :=
  match splitDotGo cs [] with
  | [a] => (digitsToNat a).map (fun n => (n : ℚ))
  | [a, b] =>
    if a = [] ∧ b = [] then none
    else
      match (if a = [] then some 0 else digitsToNat a),
            (if b = [] then some 0 else digitsToNat b) with
      | some na, some nb => some ((na : ℚ) + (nb : ℚ) / (10 : ℚ) ^ b.length)
      | _, _ => none
  | _ => none

/-- Optional sign in front of a decimal numeral. -/
def parseSignedDecChars : List Char → Option ℚ
  | '-' :: rest => (parseDecChars rest).map Neg.neg
  | '+' :: rest => parseDecChars rest
  | cs => parseDecChars cs

/-- Signed decimal parse: Python `float(...)` on already-stripped text. -/
def parseSignedDec (s : String) : Option ℚ :=
  parseSignedDecChars s.data

/-- Python `int(...)` digits after an optional sign, no dot. -/
def parseIntChars : List Char → Option Int
  | '-' :: rest => (digitsToNat rest).map (fun n => -(n : Int))
  | '+' :: rest => (digitsToNat rest).map (fun n => (n : Int))
  | cs => (digitsToNat cs).map (fun n => (n : Int))

/-- Python `int(...)` on already-stripped text: sign plus digits, no dot. -/
def parseIntStr (s : String) : Option Int :=
  parseIntChars s.data

/-- Python `float(v)` as used inside `derive_age_group`: exact on numbers,
decimal parse (with whitespace stripping) on strings, failure on `None`. -/
def pyFloat : Value → Option ℚ
  | .vNone => none
  | .vInt n => some (n : ℚ)
  | .vFloat q => some q
  | .vStr s => parseSignedDec (pyStrip s)

/-- `derive_age_group` (lines 69-76). -/
def derive_age_group (age_value : Value) : Option String :=
  if is_missing age_value then none
  else
    match pyFloat age_value with
    | none => none
    | some a => some (if a ≤ 65 then "<= 65 years" else "> 65 years")

/-- `parse_numeric` (lines 83-91): strip, empty is absent, text with a dot
parses as float, dotless text parses as int, failures are absent. -/
def parse_numeric (raw : String) : Option Value :=
  let r := pyStrip raw
  if r = "" then none
  else if r.data.contains '.' then (parseSignedDec r).map Value.vFloat
  else (parseIntStr r).map Value.vInt

/-- The inline warning condition of `input_widget` for numeric fields
(lines 213-215): nonblank text that failed to parse. -/
def numericWarning (raw : String) : Bool :=
  !(pyStrip raw == "") && (parse_numeric raw).isNone

/-- `LEAVE_BLANK_LABEL`. -/
def LEAVE_BLANK_LABEL : String := "(leave blank)"

/-- `MISSING_LABELS` (a Python set; order is irrelevant, membership only). -/
def MISSING_LABELS : List String := ["Not Known / Missing", "Missing / Not Noted"]

/-- Loop body accumulator of `clean_levels` (lines 46-58), with the `seen`
set threaded explicitly. -/
def clean_levels_go : List Value → List String → List String
  | [], _ => []
  | v :: rest, seen =>
    if is_missing v then clean_levels_go rest seen
    else
      let s := pyStrip (valueToText v)
      if s = "" ∨ s ∈ MISSING_LABELS then clean_levels_go rest seen
      else if s ∈ seen then clean_levels_go rest seen
      else s :: clean_levels_go rest (s :: seen)

/-- `clean_levels`. -/
def clean_levels (values : List Value) : List String :=
  clean_levels_go values []

/-- `pd.Series.dropna`: remove missing values. -/
def dropna (vs : List Value) : List Value :=
  vs.filter (fun v => !is_missing v)

/-! ### Python dicts as association lists -/

/-- Dict lookup: value of the first entry with the given key. -/
def alookup {α : Type} : List (String × α) → String → Option α
  | [], _ => none
  | (k2, v) :: rest, k => if k2 = k then some v else alookup rest k

/-- Python `k in d`. -/
def dcontains {α : Type} (d : List (String × α)) (k : String) : Bool :=
  (alookup d k).isSome

/-- Python `d[k] = v`: overwrite in place, append if the key is new. -/
def dinsert {α : Type} : List (String × α) → String → α → List (String × α)
  | [], k, v => [(k, v)]
  | (k2, w) :: rest, k, v =>
    if k2 = k then (k2, v) :: rest else (k2, w) :: dinsert rest k v

/-- Python `d.setdefault(k, v)`. -/
def dsetdefault {α : Type} (d : List (String × α)) (k : String) (v : α) :
    List (String × α) :=
  if dcontains d k then d else d ++ [(k, v)]

/-- Python `d.get(k)` on a record: `None` when the key is absent. -/
def recGetD (d : List (String × Value)) (k : String) : Value :=
  (alookup d k).getD .vNone

/-! ### Master dataset -/

/-- The master dataset: column names plus rows; a row entry missing from
its association list stands for a NaN cell (pandas rows are total over the
columns, with NaN for empty cells). -/
structure Df where
  cols : List String
  rows : List (List (String × Value))
deriving DecidableEq, Repr

/-- Cell of a row (NaN when the entry is not stored). -/
def rowGet (r : List (String × Value)) (c : String) : Value :=
  (alookup r c).getD .vNone

/-- Values of one column, in row order. -/
def colValues (df : Df) (c : String) : List Value :=
  df.rows.map (fun r => rowGet r c)

/-- Trim column names, as both dataset loaders do
(`df.columns = [str(c).strip() for c in df.columns]`). -/
def trimDfCols (df : Df) : Df :=
  ⟨df.cols.map pyStrip, df.rows.map (fun r => r.map (fun p => (pyStrip p.1, p.2)))⟩

/-- `build_levels_from_df` (lines 61-66): dict from categorical column to
its cleaned level list, for the columns present in the dataset. -/
def build_levels_from_df (df : Df) (cat_cols : List String) :
    List (String × List String) :=
  cat_cols.foldl
    (fun lv c =>
      if c ∈ df.cols then dinsert lv c (clean_levels (dropna (colValues df c)))
      else lv)
    []

/-- `levels[col]` when present and nonempty, `[]` otherwise: the page always
guards level use by `col in levels and len(levels[col]) > 0`. -/
def levelsOf (levels : List (String × List String)) (col : String) : List String :=
  (alookup levels col).getD []

/-! ### Patient records -/

/-- Value stored for feature `c` by `build_patient_record_from_row`
(lines 229-237): the row's cell if the column exists and is not missing,
absent otherwise (`_clean_scalar` is the identity here). -/
def rowVal (rowIdx : List String) (row : List (String × Value)) (c : String) :
    Value :=
  if c ∈ rowIdx then
    let val := rowGet row c
    if is_missing val then .vNone else val
  else .vNone

/-- `build_patient_record_from_row`. -/
def build_patient_record_from_row (rowIdx : List String)
    (row : List (String × Value)) (feature_cols : List String) :
    List (String × Value) :=
  feature_cols.foldl (fun rec c => dinsert rec c (rowVal rowIdx row c)) []

/-- `Option String` results of `derive_age_group` as stored in a record. -/
def optStrToValue : Option String → Value
  | none => .vNone
  | some s => .vStr s

/-- `{c: None for c in FEATURE_COLS}` (line 318). -/
def dictOfNone (cols : List String) : List (String × Value) :=
  cols.foldl (fun d c => dinsert d c Value.vNone) []

/-- Auto-filled base record for a selected row (lines 322-326): record from
the row, with `age_group` overwritten by the derived value when declared. -/
def autoFillBase (rowIdx : List String) (row : List (String × Value))
    (feature_cols : List String) : List (String × Value) :=
  let base := build_patient_record_from_row rowIdx row feature_cols
  if "age_group" ∈ feature_cols then
    dinsert base "age_group" (optStrToValue (derive_age_group (recGetD base "age")))
  else base

/-- Predicate of the row lookup
`df_master["patient_id"].astype(str).str.strip() == sel` (line 322). -/
def matchesSel (sel : String) (r : List (String × Value)) : Bool :=
  pyStrip (pandasStr (rowGet r "patient_id")) = sel

/-- First matching row (`.iloc[0]`); theorems about a real selection carry
the hypothesis that a match exists, since pandas raises otherwise. -/
def firstRowMatching (df : Df) (sel : String) : List (String × Value) :=
  (df.rows.find? (matchesSel sel)).getD []

/-- The base record the page computes for the current selection
(lines 318-326): all-absent for `"(none)"`, auto-filled otherwise. -/
def pageBase (feature_cols : List String) (df : Df) (sel : String) :
    List (String × Value) :=
  if sel = "(none)" then dictOfNone feature_cols
  else autoFillBase df.cols (firstRowMatching df sel) feature_cols

/-! ### Widgets and session state -/

/-- `wkey` (lines 165-167): dedicated widget-backing session-state key. -/
def wkey (col : String) : String := "w__" ++ col

/-- Widget-backing session value with the widget's default (`""` for a
text_input, the first option for a selectbox). -/
def ssGetD (w : List (String × String)) (k d : String) : String :=
  (alookup w k).getD d

/-- Value `seed_widgets_from_patient` stores for one column
(lines 175-199); the Python locals `v` and `s` are inlined. -/
def seedValue (base : List (String × Value)) (numeric_cols : List String)
    (levels : List (String × List String)) (col : String) : String :=
  if col ∈ numeric_cols then as_text (recGetD base col)
  else if (levelsOf levels col).length > 0 then
    if is_missing (recGetD base col) then LEAVE_BLANK_LABEL
    else if pyStrip (valueToText (recGetD base col)) ∈
        LEAVE_BLANK_LABEL :: levelsOf levels col then
      pyStrip (valueToText (recGetD base col))
    else LEAVE_BLANK_LABEL
  else as_text (recGetD base col)

/-- `seed_widgets_from_patient` (lines 170-199): write every declared
feature's widget key except `age_group`. -/
def seed_widgets_from_patient (base : List (String × Value))
    (feature_cols numeric_cols : List String)
    (levels : List (String × List String)) (w : List (String × String)) :
    List (String × String) :=
  feature_cols.foldl
    (fun w col =>
      if col = "age_group" then w
      else dinsert w (wkey col) (seedValue base numeric_cols levels col))
    w

/-- The option a selectbox effectively shows for a column: its stored
widget state when that is still one of the options, else the first option
(the framework resets out-of-options state to the default). -/
def widgetPick (w : List (String × String))
    (levels : List (String × List String)) (col : String) : String :=
  if ssGetD w (wkey col) LEAVE_BLANK_LABEL ∈
      LEAVE_BLANK_LABEL :: levelsOf levels col then
    ssGetD w (wkey col) LEAVE_BLANK_LABEL
  else LEAVE_BLANK_LABEL

/-- `input_widget` (lines 202-226), reading the widget state bound to the
column's key. -/
def widgetValue (w : List (String × String)) (numeric_cols : List String)
    (levels : List (String × List String)) (col : String) : Value :=
  if col ∈ numeric_cols then
    match parse_numeric (ssGetD w (wkey col) "") with
    | some v => v
    | none => .vNone
  else if (levelsOf levels col).length > 0 then
    if widgetPick w levels col = LEAVE_BLANK_LABEL then .vNone
    else .vStr (widgetPick w levels col)
  else if pyStrip (ssGetD w (wkey col) "") = "" then .vNone
  else .vStr (pyStrip (ssGetD w (wkey col) ""))

/-- `CATEGORIES` (lines 128-159): the fixed layout groups. -/
def CATEGORIES : List (String × List String) :=
  [("Demographics & Socio-economic",
    ["age", "gender", "ethnicity", "education_level",
     "employment_status", "alcohol_consumption", "smoking_status_detail"]),
   ("Tumor & Molecular Context",
    ["tumor_type", "molecular_alterations", "mutations_present",
     "genotipo_DPYD_type"]),
   ("Treatment Exposure (Baseline)",
    ["surgical_intervention", "radiotherapy_status", "received_chemo",
     "received_targeted_therapy", "oncology_treatment_lines_n",
     "n_treatment_lines", "max_combo_regimen_size", "total_chemo_cycles",
     "treatment_duration_days"]),
   ("Comorbidities & Clinical Conditions",
    ["hypertension", "dyslipidemia", "ischemic_heart_disease",
     "atrial_fibrillation", "hypertensive_heart_disease", "diabete_tipo_II",
     "obesity_comorbidity", "copd", "asthma", "renal_insufficiency",
     "anemia_comorbidity", "depressive_syndrome", "psychiatric_disorders",
     "cerebrovascular_disorders", "gastroesophageal_reflux_full",
     "gastrointestinal_disorders", "cardiovascular_disorders"]),
   ("Frailty & Burden Indices",
    ["cci_score", "IPB", "farmaci_cat_n", "total_unique_active_drugs"]),
   ("Laboratory Ranges",
    ["white_blood_cells_range", "red_blood_cells_range", "hemoglobin_range",
     "neutrophils_percent_range", "platelet_count_range", "creatinine_range",
     "ast_got_range", "alt_gpt_range", "total_bilirubin_range",
     "direct_bilirubin_range"]),
   ("ADR Summary", ["adr_n_tot"])]

/-- All grouped columns, in render order. -/
def CATEGORIES_COLS : List String :=
  (CATEGORIES.map Prod.snd).flatten

/-- Columns the form actually renders this run (lines 376-384): grouped
columns that are declared features, never `age_group`. -/
def renderedCols (feature_cols : List String) : List String :=
  CATEGORIES_COLS.filter (fun c => c ∈ feature_cols ∧ c ≠ "age_group")

/-- The `updated` dict collected while rendering the form
(lines 367-384). -/
def buildUpdated (feature_cols numeric_cols : List String)
    (levels : List (String × List String)) (w : List (String × String)) :
    List (String × Value) :=
  (renderedCols feature_cols).foldl
    (fun u col => dinsert u col (widgetValue w numeric_cols levels col)) []

/-- The override loop of the submit handler (lines 393-397): manual values
over the base record for every declared feature except `age_group`; a
feature not in `updated` keeps its base value. -/
def mergeLoop (base updated : List (String × Value))
    (feature_cols : List String) : List (String × Value) :=
  feature_cols.foldl
    (fun m col =>
      if col = "age_group" then m
      else
        match alookup updated col with
        | some v => dinsert m col v
        | none => m)
    base

/-- The submit handler's merge (lines 390-404): the override loop, then
`age_group` recomputed from the merged `age`, then `setdefault` for every
declared feature. -/
def submitMerge (base updated : List (String × Value))
    (feature_cols : List String) : List (String × Value) :=
  let m1 := mergeLoop base updated feature_cols
  let m2 :=
    if "age_group" ∈ feature_cols then
      dinsert m1 "age_group" (optStrToValue (derive_age_group (recGetD m1 "age")))
    else m1
  feature_cols.foldl (fun m c => dsetdefault m c Value.vNone) m2

/-- The session-state slots of this page (one Python `st.session_state`
dict; the keys are disjoint, so a structure is a faithful split):
`_active_patient_id`, the `w__`-prefixed widget map, `patient_record`,
`selected_patient_id`. -/
structure SState where
  activePatientId : Option String
  widgets : List (String × String)
  patientRecord : List (String × Value)
  selectedPatientId : Option String
deriving DecidableEq, Repr

/-- One run of the page body from patient selection onward
(lines 316-405): compute the base record, seed widgets only when the
selection changed, persist the base record unconditionally, and on submit
persist the merged record instead. -/
def pageRun (feature_cols numeric_cols cat_cols : List String) (df : Df)
    (sel : String) (submit : Bool) (ss : SState) : SState :=
  let levels := build_levels_from_df df cat_cols
  let base := pageBase feature_cols df sel
  let ss1 :=
    if sel ≠ "(none)" ∧ ss.activePatientId ≠ some sel then
      { ss with
          activePatientId := some sel,
          widgets :=
            seed_widgets_from_patient base feature_cols numeric_cols levels
              ss.widgets }
    else ss
  let ss2 :=
    { ss1 with
        selectedPatientId := if sel = "(none)" then none else some sel,
        patientRecord := base }
  if submit then
    let updated := buildUpdated feature_cols numeric_cols levels ss2.widgets
    { ss2 with patientRecord := submitMerge base updated feature_cols }
  else ss2

/-! ### Data source and availability checks -/

/-- Raw bytes of an uploaded file. -/
def Bytes : Type := List Nat

/-- The data-source block (lines 279-292): an upload caches its bytes in
session state and is parsed from those cached bytes with trimmed columns;
with no upload the default-path dataset (itself loaded with trimmed
columns) is used when available and cached bytes are not consulted.
`parse` abstracts `pd.read_excel` on a byte buffer.  Returns the dataset
(if any) and the new cached-bytes slot. -/
def dataSource (parse : Bytes → Df) (upload : Option Bytes)
    (defaultDf : Option Df) (cached : Option Bytes) : Option Df × Option Bytes :=
  match upload with
  | some b => (some (trimDfCols (parse b)), some b)
  | none => (defaultDf, cached)

/-- How the page halts early (`st.stop` after a message); a halt ends this
page's render only, never the process. -/
inductive PageHalt where
  | warnNoData
  | errNoPatientId
deriving DecidableEq, Repr

/-- The page body with its availability checks (lines 290-296): no dataset
halts with a warning, a dataset without `patient_id` halts with an error,
and in both cases nothing further runs (session state untouched). -/
def patientInputPage (feature_cols numeric_cols cat_cols : List String)
    (dfOpt : Option Df) (sel : String) (submit : Bool) (ss : SState) :
    Option PageHalt × SState :=
  match dfOpt with
  | none => (some .warnNoData, ss)
  | some df =>
    if "patient_id" ∈ df.cols then
      (none, pageRun feature_cols numeric_cols cat_cols df sel submit ss)
    else (some .errNoPatientId, ss)

/-! ### Dictionary lemmas -/

theorem alookup_dinsert {α : Type} (d : List (String × α)) (k : String) (v : α)
    (c : String) :
    alookup (dinsert d k v) c = if k = c then some v else alookup d c := by
  induction d with
  | nil => simp [dinsert, alookup]
  | cons p rest ih =>
    obtain ⟨k2, w⟩ := p
    by_cases h2 : k2 = k
    · subst h2
      by_cases h3 : k2 = c <;> simp [dinsert, alookup, h3]
    · by_cases h3 : k2 = c
      · subst h3
        have : ¬k = k2 := fun e => h2 e.symm
        simp [dinsert, alookup, h2, this]
      · simp [dinsert, alookup, h2, h3, ih]

theorem alookup_append {α : Type} (d e : List (String × α)) (c : String) :
    alookup (d ++ e) c =
      if (alookup d c).isSome then alookup d c else alookup e c := by
  induction d with
  | nil => simp [alookup]
  | cons p rest ih =>
    obtain ⟨k2, w⟩ := p
    by_cases h2 : k2 = c <;> simp [alookup, h2, ih]

theorem alookup_dsetdefault {α : Type} (d : List (String × α)) (k : String)
    (v : α) (c : String) :
    alookup (dsetdefault d k v) c =
      if (alookup d c).isSome then alookup d c
      else if k = c then some v else none := by
  unfold dsetdefault dcontains
  by_cases hk : (alookup d k).isSome
  · rw [if_pos hk]
    cases hc : alookup d c with
    | some w => simp
    | none =>
      by_cases hkc : k = c
      · subst hkc
        rw [hc] at hk
        simp at hk
      · simp [hkc]
  · rw [if_neg hk]
    rw [alookup_append]
    cases hc : alookup d c with
    | some w => simp
    | none => simp [alookup]

theorem alookup_foldl_setdefault {α : Type} (L : List String) (v0 : α)
    (d : List (String × α)) (c : String) :
    alookup (L.foldl (fun d k => dsetdefault d k v0) d) c =
      if (alookup d c).isSome then alookup d c
      else if c ∈ L then some v0 else none := by
  induction L generalizing d with
  | nil => cases hc : alookup d c <;> simp [hc]
  | cons a rest ih =>
    simp only [List.foldl_cons]
    rw [ih, alookup_dsetdefault]
    cases hc : alookup d c with
    | some w => simp
    | none =>
      by_cases hac : a = c
      · subst hac
        simp
      · have : ¬c = a := fun e => hac e.symm
        simp [hac, this]

/-- Master lemma for the page's dict-building folds: a fold whose step
inserts value `g k` at key `h k` for every `k` passing guard `p`, with `h`
injective. -/
theorem alookup_foldl_ins {α : Type}
    (f : List (String × α) → String → List (String × α))
    (h : String → String) (hinj : ∀ a b, h a = h b → a = b)
    (p : String → Bool) (g : String → α)
    (hf : ∀ d k, f d k = if p k then dinsert d (h k) (g k) else d)
    (L : List String) (d : List (String × α)) (c : String) :
    alookup (L.foldl f d) (h c) =
      if c ∈ L ∧ p c = true then some (g c) else alookup d (h c) := by
  induction L generalizing d with
  | nil => simp
  | cons a rest ih =>
    simp only [List.foldl_cons, hf]
    by_cases hp : p a
    · rw [if_pos hp, ih]
      by_cases hm : c ∈ rest ∧ p c = true
      · rw [if_pos hm, if_pos ⟨List.mem_cons_of_mem a hm.1, hm.2⟩]
      · rw [if_neg hm, alookup_dinsert]
        by_cases hac : h a = h c
        · have hac2 : a = c := hinj _ _ hac
          subst hac2
          rw [if_pos rfl, if_pos ⟨List.mem_cons_self a rest, hp⟩]
        · have hne : ¬(c ∈ a :: rest ∧ p c = true) := by
            rintro ⟨hmem, hpc⟩
            rcases List.mem_cons.mp hmem with hca | hcr
            · exact hac (by rw [hca])
            · exact hm ⟨hcr, hpc⟩
          rw [if_neg hac, if_neg hne]
    · rw [if_neg hp, ih]
      by_cases hm : c ∈ rest ∧ p c = true
      · rw [if_pos hm, if_pos ⟨List.mem_cons_of_mem a hm.1, hm.2⟩]
      · have hne : ¬(c ∈ a :: rest ∧ p c = true) := by
          rintro ⟨hmem, hpc⟩
          rcases List.mem_cons.mp hmem with hca | hcr
          · subst hca
            exact hp (by simpa using hpc)
          · exact hm ⟨hcr, hpc⟩
        rw [if_neg hm, if_neg hne]

@[simp] theorem alookup_nil {α : Type} (c : String) :
    alookup ([] : List (String × α)) c = none := rfl

theorem wkey_inj (a b : String) (h : wkey a = wkey b) : a = b := by
  unfold wkey at h
  have h3 : "w__".data ++ a.data = "w__".data ++ b.data := congrArg String.data h
  have h4 : a.data = b.data := List.append_cancel_left h3
  cases a
  cases b
  simp only [String.data] at h4
  rw [h4]

theorem alookup_dictOfNone (cols : List String) (c : String) :
    alookup (dictOfNone cols) c = if c ∈ cols then some Value.vNone else none := by
  unfold dictOfNone
  have := alookup_foldl_ins (fun d c => dinsert d c Value.vNone) (fun s => s)
      (fun a b hh => hh) (fun _ => true) (fun _ => Value.vNone)
      (fun d k => by simp) cols [] c
  simpa using this

theorem alookup_bpr (rowIdx : List String) (row : List (String × Value))
    (fc : List String) (c : String) :
    alookup (build_patient_record_from_row rowIdx row fc) c =
      if c ∈ fc then some (rowVal rowIdx row c) else none := by
  unfold build_patient_record_from_row
  have := alookup_foldl_ins (fun rec c => dinsert rec c (rowVal rowIdx row c))
      (fun s => s) (fun a b hh => hh) (fun _ => true) (rowVal rowIdx row)
      (fun d k => by simp) fc [] c
  simpa using this

theorem alookup_buildLevels (df : Df) (cc : List String) (c : String) :
    alookup (build_levels_from_df df cc) c =
      if c ∈ cc ∧ c ∈ df.cols then
        some (clean_levels (dropna (colValues df c)))
      else none := by
  unfold build_levels_from_df
  have := alookup_foldl_ins
      (fun lv c =>
        if c ∈ df.cols then dinsert lv c (clean_levels (dropna (colValues df c)))
        else lv)
      (fun s => s) (fun a b hh => hh) (fun c => decide (c ∈ df.cols))
      (fun c => clean_levels (dropna (colValues df c)))
      (fun d k => by by_cases hk : k ∈ df.cols <;> simp [hk]) cc [] c
  simpa using this

theorem levelsOf_buildLevels (df : Df) (cc : List String) (col : String) :
    levelsOf (build_levels_from_df df cc) col =
      if col ∈ cc ∧ col ∈ df.cols then clean_levels (dropna (colValues df col))
      else [] := by
  unfold levelsOf
  rw [alookup_buildLevels]
  by_cases h : col ∈ cc ∧ col ∈ df.cols <;> simp [h]

theorem alookup_seed (base : List (String × Value)) (fc nc : List String)
    (lv : List (String × List String)) (w : List (String × String))
    (c : String) :
    alookup (seed_widgets_from_patient base fc nc lv w) (wkey c) =
      if c ∈ fc ∧ ¬c = "age_group" then some (seedValue base nc lv c)
      else alookup w (wkey c) := by
  unfold seed_widgets_from_patient
  have := alookup_foldl_ins
      (fun w col =>
        if col = "age_group" then w
        else dinsert w (wkey col) (seedValue base nc lv col))
      wkey wkey_inj (fun col => decide (¬col = "age_group")) (seedValue base nc lv)
      (fun d k => by by_cases hk : k = "age_group" <;> simp [hk]) fc w c
  simpa using this

theorem alookup_buildUpdated (fc nc : List String)
    (lv : List (String × List String)) (w : List (String × String))
    (c : String) :
    alookup (buildUpdated fc nc lv w) c =
      if c ∈ renderedCols fc then some (widgetValue w nc lv c) else none := by
  unfold buildUpdated
  have := alookup_foldl_ins
      (fun u col => dinsert u col (widgetValue w nc lv col))
      (fun s => s) (fun a b hh => hh) (fun _ => true)
      (fun col => widgetValue w nc lv col)
      (fun d k => by simp) (renderedCols fc) [] c
  simpa using this

theorem alookup_mergeLoop (base updated : List (String × Value))
    (fc : List String) (c : String) :
    alookup (mergeLoop base updated fc) c =
      if c ∈ fc ∧ (¬c = "age_group" ∧ dcontains updated c = true) then
        some (recGetD updated c)
      else alookup base c := by
  unfold mergeLoop
  have := alookup_foldl_ins
      (fun m col =>
        if col = "age_group" then m
        else
          match alookup updated col with
          | some v => dinsert m col v
          | none => m)
      (fun s => s) (fun a b hh => hh)
      (fun col => decide (¬col = "age_group") && dcontains updated col)
      (fun col => recGetD updated col)
      (fun d k => by
        by_cases hk : k = "age_group"
        · simp [hk]
        · cases hu : alookup updated k with
          | some v => simp [hk, dcontains, hu, recGetD]
          | none => simp [hk, dcontains, hu])
      fc base c
  simpa [Bool.and_eq_true, and_assoc] using this

theorem alookup_submitMerge (base updated : List (String × Value))
    (fc : List String) (c : String) (hc : ¬c = "age_group") :
    alookup (submitMerge base updated fc) c =
      if c ∈ fc ∧ dcontains updated c = true then some (recGetD updated c)
      else
        if (alookup base c).isSome then alookup base c
        else if c ∈ fc then some Value.vNone else none := by
  unfold submitMerge
  rw [alookup_foldl_setdefault]
  have hm2 :
      alookup
        (if "age_group" ∈ fc then
          dinsert (mergeLoop base updated fc) "age_group"
            (optStrToValue
              (derive_age_group (recGetD (mergeLoop base updated fc) "age")))
        else mergeLoop base updated fc) c = alookup (mergeLoop base updated fc) c := by
    by_cases hag : "age_group" ∈ fc
    · rw [if_pos hag, alookup_dinsert, if_neg (fun e => hc e.symm)]
    · rw [if_neg hag]
  rw [hm2, alookup_mergeLoop]
  by_cases h1 : c ∈ fc ∧ dcontains updated c = true
  · have h3 : c ∈ fc ∧ (¬c = "age_group" ∧ dcontains updated c = true) :=
      ⟨h1.1, hc, h1.2⟩
    rw [if_pos h3, if_pos h1]
    simp
  · have h2 : ¬(c ∈ fc ∧ (¬c = "age_group" ∧ dcontains updated c = true)) := by
      rintro ⟨ha, _, hb⟩
      exact h1 ⟨ha, hb⟩
    rw [if_neg h2, if_neg h1]

theorem recGetD_submitMerge_age (base updated : List (String × Value))
    (fc : List String) :
    recGetD (submitMerge base updated fc) "age" =
      recGetD (mergeLoop base updated fc) "age" := by
  unfold recGetD submitMerge
  rw [alookup_foldl_setdefault]
  have hm2 :
      alookup
        (if "age_group" ∈ fc then
          dinsert (mergeLoop base updated fc) "age_group"
            (optStrToValue
              (derive_age_group (recGetD (mergeLoop base updated fc) "age")))
        else mergeLoop base updated fc) "age" =
        alookup (mergeLoop base updated fc) "age" := by
    by_cases hag : "age_group" ∈ fc
    · rw [if_pos hag, alookup_dinsert, if_neg (by decide)]
    · rw [if_neg hag]
  rw [hm2]
  cases hc : alookup (mergeLoop base updated fc) "age" with
  | some w => rfl
  | none => by_cases hf : "age" ∈ fc <;> simp [hf]

theorem alookup_submitMerge_age_group (base updated : List (String × Value))
    (fc : List String) (hag : "age_group" ∈ fc) :
    alookup (submitMerge base updated fc) "age_group" =
      some (optStrToValue
        (derive_age_group (recGetD (submitMerge base updated fc) "age"))) := by
  rw [recGetD_submitMerge_age]
  unfold submitMerge
  rw [alookup_foldl_setdefault, if_pos hag, alookup_dinsert, if_pos rfl]
  simp

theorem dcontains_pageBase (fc : List String) (df : Df) (sel : String)
    (c : String) (hc : c ∈ fc) :
    dcontains (pageBase fc df sel) c = true := by
  unfold pageBase dcontains
  by_cases hsel : sel = "(none)"
  · rw [if_pos hsel, alookup_dictOfNone, if_pos hc]
    rfl
  · rw [if_neg hsel]
    unfold autoFillBase
    by_cases hag : "age_group" ∈ fc
    · rw [if_pos hag, alookup_dinsert]
      by_cases hcag : "age_group" = c
      · rw [if_pos hcag]
        rfl
      · rw [if_neg hcag, alookup_bpr, if_pos hc]
        rfl
    · rw [if_neg hag, alookup_bpr, if_pos hc]
      rfl

theorem alookup_pageBase_ne (fc : List String) (df : Df) (sel : String)
    (c : String) (hc : c ∈ fc) (hcag : ¬c = "age_group")
    (hsel : ¬sel = "(none)") :
    alookup (pageBase fc df sel) c =
      some (rowVal df.cols (firstRowMatching df sel) c) := by
  unfold pageBase autoFillBase
  rw [if_neg hsel]
  by_cases hag : "age_group" ∈ fc
  · rw [if_pos hag, alookup_dinsert, if_neg (fun e => hcag e.symm),
      alookup_bpr, if_pos hc]
  · rw [if_neg hag, alookup_bpr, if_pos hc]

theorem widgetValue_congr (w1 w2 : List (String × String))
    (nc : List String) (lv : List (String × List String)) (col : String)
    (h : alookup w1 (wkey col) = alookup w2 (wkey col)) :
    widgetValue w1 nc lv col = widgetValue w2 nc lv col := by
  unfold widgetValue widgetPick ssGetD
  rw [h]

/-! ### Page-run lemmas -/

theorem pageRun_record_nosubmit (fc nc cc : List String) (df : Df)
    (sel : String) (ss : SState) :
    (pageRun fc nc cc df sel false ss).patientRecord = pageBase fc df sel := by
  unfold pageRun
  by_cases hg : sel ≠ "(none)" ∧ ss.activePatientId ≠ some sel <;> simp [hg]

theorem pageRun_widgets_same (fc nc cc : List String) (df : Df) (sel : String)
    (submit : Bool) (ss : SState)
    (h : ¬(sel ≠ "(none)" ∧ ss.activePatientId ≠ some sel)) :
    (pageRun fc nc cc df sel submit ss).widgets = ss.widgets := by
  unfold pageRun
  cases submit <;> simp [h]

theorem pageRun_widgets_seed (fc nc cc : List String) (df : Df) (sel : String)
    (submit : Bool) (ss : SState)
    (h : sel ≠ "(none)" ∧ ss.activePatientId ≠ some sel) :
    (pageRun fc nc cc df sel submit ss).widgets =
      seed_widgets_from_patient (pageBase fc df sel) fc nc
        (build_levels_from_df df cc) ss.widgets := by
  unfold pageRun
  cases submit <;> simp [h]

theorem pageRun_active_seed (fc nc cc : List String) (df : Df) (sel : String)
    (submit : Bool) (ss : SState)
    (h : sel ≠ "(none)" ∧ ss.activePatientId ≠ some sel) :
    (pageRun fc nc cc df sel submit ss).activePatientId = some sel := by
  unfold pageRun
  cases submit <;> simp [h]

theorem pageRun_active_same (fc nc cc : List String) (df : Df) (sel : String)
    (submit : Bool) (ss : SState)
    (h : ¬(sel ≠ "(none)" ∧ ss.activePatientId ≠ some sel)) :
    (pageRun fc nc cc df sel submit ss).activePatientId = ss.activePatientId := by
  unfold pageRun
  cases submit <;> simp [h]

theorem pageRun_record_submit_noseed (fc nc cc : List String) (df : Df)
    (sel : String) (ss : SState)
    (h : ¬(sel ≠ "(none)" ∧ ss.activePatientId ≠ some sel)) :
    (pageRun fc nc cc df sel true ss).patientRecord =
      submitMerge (pageBase fc df sel)
        (buildUpdated fc nc (build_levels_from_df df cc) ss.widgets) fc := by
  unfold pageRun
  simp [h]

theorem pageRun_record_submit_seeded (fc nc cc : List String) (df : Df)
    (sel : String) (ss : SState)
    (h : sel ≠ "(none)" ∧ ss.activePatientId ≠ some sel) :
    (pageRun fc nc cc df sel true ss).patientRecord =
      submitMerge (pageBase fc df sel)
        (buildUpdated fc nc (build_levels_from_df df cc)
          (seed_widgets_from_patient (pageBase fc df sel) fc nc
            (build_levels_from_df df cc) ss.widgets)) fc := by
  unfold pageRun
  simp [h]

theorem dcontains_submitMerge (base upd : List (String × Value))
    (fc : List String) (c : String) (hc : c ∈ fc)
    (hbase : dcontains base c = true) :
    dcontains (submitMerge base upd fc) c = true := by
  by_cases hag : c = "age_group"
  · subst hag
    rw [dcontains, alookup_submitMerge_age_group base upd fc hc]
    rfl
  · rw [dcontains, alookup_submitMerge base upd fc c hag]
    by_cases h1 : c ∈ fc ∧ dcontains upd c = true
    · rw [if_pos h1]
      rfl
    · rw [if_neg h1]
      unfold dcontains at hbase
      rw [if_pos hbase]
      exact hbase

/-! ### Specification-side level sets (for the refinement claim) -/

/-- Modelled from the spec: the observed values kept for a level set — not
missing, and not trimming to the empty string or to a placeholder label. -/
def specFilter (vs : List Value) : List String :=
  ((vs.filter (fun v => !is_missing v)).map (fun v => pyStrip (valueToText v))).filter
    (fun s => decide (¬(s = "" ∨ s ∈ MISSING_LABELS)))

/-- Modelled from the spec: deduplication preserving first-seen order. -/
def dedupFirstSeenGo : List String → List String → List String
  | [], _ => []
  | s :: rest, seen =>
    if s ∈ seen then dedupFirstSeenGo rest seen
    else s :: dedupFirstSeenGo rest (s :: seen)

/-- Modelled from the spec: "the distinct set of non-missing,
non-placeholder values observed in the master dataset, deduplicated while
preserving first-seen order", with trimmed values and the placeholder /
empty exclusions. -/
def levelsSpec (vs : List Value) : List String :=
  dedupFirstSeenGo (specFilter vs) []

theorem specFilter_cons (v : Value) (rest : List Value) :
    specFilter (v :: rest) =
      if is_missing v then specFilter rest
      else if pyStrip (valueToText v) = "" ∨ pyStrip (valueToText v) ∈ MISSING_LABELS then
        specFilter rest
      else pyStrip (valueToText v) :: specFilter rest := by
  by_cases hm : is_missing v
  · simp [specFilter, hm]
  · by_cases hb : pyStrip (valueToText v) = "" ∨ pyStrip (valueToText v) ∈ MISSING_LABELS
    · have hcond : (!decide (pyStrip (valueToText v) = "") &&
          !decide (pyStrip (valueToText v) ∈ MISSING_LABELS)) = false := by
        rcases hb with h | h <;> simp [h]
      simp [specFilter, hm, hb, List.filter_cons, hcond]
    · have hcond : (!decide (pyStrip (valueToText v) = "") &&
          !decide (pyStrip (valueToText v) ∈ MISSING_LABELS)) = true := by
        push_neg at hb
        simp [hb.1, hb.2]
      simp [specFilter, hm, hb, List.filter_cons, hcond]

theorem clean_levels_go_eq_spec (vs : List Value) :
    ∀ seen, clean_levels_go vs seen = dedupFirstSeenGo (specFilter vs) seen := by
  induction vs with
  | nil => intro seen; simp [clean_levels_go, specFilter, dedupFirstSeenGo]
  | cons v rest ih =>
    intro seen
    rw [specFilter_cons]
    by_cases hm : is_missing v
    · simp only [clean_levels_go, hm, if_pos, if_true]
      exact ih seen
    · by_cases hb : pyStrip (valueToText v) = "" ∨ pyStrip (valueToText v) ∈ MISSING_LABELS
      · simp only [clean_levels_go, hm, Bool.false_eq_true, if_false, hb, if_true]
        exact ih seen
      · by_cases hseen : pyStrip (valueToText v) ∈ seen
        · simp only [clean_levels_go, dedupFirstSeenGo, hm, Bool.false_eq_true,
            if_false, hb, hseen, if_true]
          exact ih seen
        · simp only [clean_levels_go, dedupFirstSeenGo, hm, Bool.false_eq_true,
            if_false, hb, hseen]
          rw [ih]

theorem clean_levels_eq_spec (vs : List Value) :
    clean_levels vs = levelsSpec vs :=
  clean_levels_go_eq_spec vs []

theorem specFilter_dropna (vs : List Value) :
    specFilter (dropna vs) = specFilter vs := by
  simp [specFilter, dropna, List.filter_filter]

theorem mem_clean_levels_go (vs : List Value) :
    ∀ seen s, s ∈ clean_levels_go vs seen →
      ¬(s = "" ∨ s ∈ MISSING_LABELS) := by
  induction vs with
  | nil => intro seen s h; simp [clean_levels_go] at h
  | cons v rest ih =>
    intro seen s h
    by_cases hm : is_missing v
    · exact ih seen s (by simpa [clean_levels_go, hm] using h)
    · by_cases hb : pyStrip (valueToText v) = "" ∨ pyStrip (valueToText v) ∈ MISSING_LABELS
      · exact ih seen s (by simpa [clean_levels_go, hm, hb] using h)
      · by_cases hseen : pyStrip (valueToText v) ∈ seen
        · exact ih seen s (by simpa [clean_levels_go, hm, hb, hseen] using h)
        · have h2 : s = pyStrip (valueToText v) ∨
              s ∈ clean_levels_go rest (pyStrip (valueToText v) :: seen) := by
            simpa [clean_levels_go, hm, hb, hseen] using h
          rcases h2 with h2 | h2
          · subst h2; exact hb
          · exact ih _ s h2

theorem mem_clean_levels_ne_empty (vs : List Value) (s : String)
    (h : s ∈ clean_levels vs) : ¬s = "" := by
  have := mem_clean_levels_go vs [] s h
  exact fun e => this (Or.inl e)

theorem parse_numeric_not_vStr (s : String) (v : Value)
    (h : parse_numeric s = some v) : ∀ t, ¬v = .vStr t := by
  simp only [parse_numeric] at h
  by_cases he : pyStrip s = ""
  · rw [if_pos he] at h
    exact Option.noConfusion h
  · rw [if_neg he] at h
    by_cases hd : (pyStrip s).data.contains '.' = true
    · rw [if_pos hd] at h
      rcases Option.map_eq_some'.mp h with ⟨q, _, hq⟩
      intro t ht
      rw [ht] at hq
      exact Value.noConfusion hq
    · rw [if_neg hd] at h
      rcases Option.map_eq_some'.mp h with ⟨n, _, hn⟩
      intro t ht
      rw [ht] at hn
      exact Value.noConfusion hn

/-- Concrete evaluation of the float branch of `parse_numeric`: the string
side reduces structurally, the rational value is settled by `norm_num`. -/
theorem parse_numeric_42_5 : parse_numeric "42.5" = some (.vFloat (85 / 2)) := by
  have h1 : parse_numeric "42.5" =
      some (.vFloat (((42 : ℕ) : ℚ) + ((5 : ℕ) : ℚ) / (10 : ℚ) ^ (1 : ℕ))) := rfl
  rw [h1]
  norm_num

/-! ### Concrete fixtures used by witnesses and counterexamples -/

/-- A two-row master dataset: P1 carries age 70, gender Male, and the
placeholder string in `ethnicity`; P2 supplies the other level values. -/
def sampleDf : Df :=
  ⟨["patient_id", "age", "gender", "ethnicity"],
   [[("patient_id", .vStr "P1"), ("age", .vInt 70), ("gender", .vStr "Male"),
     ("ethnicity", .vStr "Not Known / Missing")],
    [("patient_id", .vStr "P2"), ("gender", .vStr "Female"),
     ("ethnicity", .vStr "B")]]⟩

def sampleFc : List String := ["age", "gender", "ethnicity", "age_group"]

def sampleNc : List String := ["age"]

def sampleCc : List String := ["gender", "ethnicity"]

/-- A fresh session. -/
def sampleSs0 : SState := ⟨none, [], [], none⟩

/-- A session carrying stale state from earlier interactions. -/
def sampleSsPrior : SState :=
  ⟨some "P9", [("w__age", "1")], [("junk", .vStr "old")], some "P9"⟩

/-- A dataset with a single untrimmed column name and no rows. -/
def c7Df : Df := ⟨[" a "], []⟩

def c7Bytes : Bytes := [1, 2]

/-! ### Claims -/

/-- C3: the age-group derivation yields absent for a missing age and for an
age that fails to parse as a number; a numeric age `a` yields the literal
`"<= 65 years"` when `a ≤ 65` and `"> 65 years"` otherwise; concretely 65
maps to `"<= 65 years"`, 65.1 to `"> 65 years"`, and `"abc"` and absent map
to absent. -/
theorem C3_age_group_derivation :
    (∀ v : Value, is_missing v = true → derive_age_group v = none) ∧
    (∀ v : Value, pyFloat v = none → derive_age_group v = none) ∧
    (∀ (v : Value) (a : ℚ), pyFloat v = some a → a ≤ 65 →
      derive_age_group v = some "<= 65 years") ∧
    (∀ (v : Value) (a : ℚ), pyFloat v = some a → 65 < a →
      derive_age_group v = some "> 65 years") ∧
    derive_age_group (.vInt 65) = some "<= 65 years" ∧
    derive_age_group (.vFloat (651 / 10)) = some "> 65 years" ∧
    derive_age_group (.vStr "abc") = none ∧
    derive_age_group .vNone = none := by
  have h3 : ∀ (v : Value) (a : ℚ), pyFloat v = some a → a ≤ 65 →
      derive_age_group v = some "<= 65 years" := by
    intro v a h ha
    cases v with
    | vNone => simp [pyFloat] at h
    | vInt n => simp [derive_age_group, is_missing, h, ha]
    | vFloat q => simp [derive_age_group, is_missing, h, ha]
    | vStr s => simp [derive_age_group, is_missing, h, ha]
  have h4 : ∀ (v : Value) (a : ℚ), pyFloat v = some a → 65 < a →
      derive_age_group v = some "> 65 years" := by
    intro v a h ha
    have hn : ¬a ≤ 65 := not_le.mpr ha
    cases v with
    | vNone => simp [pyFloat] at h
    | vInt n => simp [derive_age_group, is_missing, h, hn]
    | vFloat q => simp [derive_age_group, is_missing, h, hn]
    | vStr s => simp [derive_age_group, is_missing, h, hn]
  refine ⟨?_, ?_, h3, h4,
    h3 (.vInt 65) 65 (by norm_num [pyFloat]) (by norm_num),
    h4 (.vFloat (651 / 10)) (651 / 10) rfl (by norm_num),
    by decide, by decide⟩
  · intro v h
    unfold derive_age_group
    rw [if_pos h]
  · intro v h
    by_cases hm : is_missing v = true
    · unfold derive_age_group
      rw [if_pos hm]
    · unfold derive_age_group
      rw [if_neg hm, h]

theorem C3_age_group_derivation_witness :
    derive_age_group (.vInt 30) = some "<= 65 years" :=
  C3_age_group_derivation.2.2.1 (.vInt 30) 30 (by norm_num [pyFloat]) (by norm_num)

/-- C4: `clean_levels` computes exactly the distinct trimmed observed
values in first-seen order, excluding missing values, values trimming to
the empty string, and the two placeholder labels; `build_levels_from_df`
applies it to every categorical column present in the dataset; concretely
the rows A, "Missing / Not Noted", B, A, "" yield the level set A, B. -/
theorem C4_level_sets :
    (∀ vs : List Value, clean_levels vs = levelsSpec vs) ∧
    (∀ (df : Df) (cat_cols : List String) (c : String),
      c ∈ cat_cols → c ∈ df.cols →
      alookup (build_levels_from_df df cat_cols) c =
        some (levelsSpec (colValues df c))) ∧
    clean_levels
        [.vStr "A", .vStr "Missing / Not Noted", .vStr "B", .vStr "A", .vStr ""] =
      ["A", "B"] := by
  refine ⟨clean_levels_eq_spec, ?_, by decide⟩
  intro df cc c h1 h2
  rw [alookup_buildLevels, if_pos ⟨h1, h2⟩, clean_levels_eq_spec]
  unfold levelsSpec
  rw [specFilter_dropna]

theorem C4_level_sets_witness :
    alookup (build_levels_from_df sampleDf sampleCc) "gender" =
      some (levelsSpec (colValues sampleDf "gender")) :=
  C4_level_sets.2.1 sampleDf sampleCc "gender" (by decide) (by decide)

/-- C5: numeric parsing maps blank text to absent, dotless text to an
integer, dotted text to a float, and unparsable text to absent; the inline
warning fires exactly for nonblank unparsable text, and a warned numeric
field still contributes absent to the record (submission is not blocked). -/
theorem C5_numeric_parsing :
    parse_numeric "42" = some (.vInt 42) ∧
    parse_numeric "42.5" = some (.vFloat (85 / 2)) ∧
    parse_numeric "" = none ∧
    parse_numeric "abc" = none ∧
    numericWarning "abc" = true ∧
    numericWarning "" = false ∧
    (∀ s : String, pyStrip s = "" → parse_numeric s = none) ∧
    (∀ (s : String) (v : Value), parse_numeric s = some v →
      ((pyStrip s).data.contains '.' = true → ∃ q : ℚ, v = .vFloat q) ∧
      ((pyStrip s).data.contains '.' = false → ∃ n : Int, v = .vInt n)) ∧
    (∀ (w : List (String × String)) (nc : List String)
        (lv : List (String × List String)) (col : String), col ∈ nc →
      numericWarning (ssGetD w (wkey col) "") = true →
      widgetValue w nc lv col = .vNone) := by
  refine ⟨by decide, parse_numeric_42_5, by decide, by decide, by decide,
    by decide, ?_, ?_, ?_⟩
  · intro s h
    simp only [parse_numeric]
    rw [if_pos h]
  · intro s v h
    simp only [parse_numeric] at h
    by_cases he : pyStrip s = ""
    · rw [if_pos he] at h
      exact Option.noConfusion h
    · rw [if_neg he] at h
      constructor
      · intro hd
        rw [if_pos hd] at h
        rcases Option.map_eq_some'.mp h with ⟨q, _, hq⟩
        exact ⟨q, hq.symm⟩
      · intro hd
        rw [if_neg (fun hh => Bool.noConfusion (hd ▸ hh))] at h
        rcases Option.map_eq_some'.mp h with ⟨n, _, hn⟩
        exact ⟨n, hn.symm⟩
  · intro w nc lv col hcol hwarn
    have hnone : (parse_numeric (ssGetD w (wkey col) "")).isNone = true := by
      unfold numericWarning at hwarn
      rw [Bool.and_eq_true] at hwarn
      exact hwarn.2
    unfold widgetValue
    rw [if_pos hcol]
    cases hp : parse_numeric (ssGetD w (wkey col) "") with
    | some v =>
      rw [hp] at hnone
      simp at hnone
    | none => rfl

theorem C5_numeric_parsing_witness :
    parse_numeric "   " = none :=
  C5_numeric_parsing.2.2.2.2.2.2.1 "   " (by decide)

/-- C7 (counterexample): on a run where the uploader yields no file but
cached upload bytes exist in session state and the default dataset is
absent, the page obtains no dataset at all; the cached bytes are not
re-parsed, contradicting the claim that such a run still builds the
dataset from the cached bytes. -/
theorem C7_cached_bytes_counterexample :
    dataSource (fun _ => c7Df) none none (some c7Bytes) = (none, some c7Bytes) ∧
    some (trimDfCols c7Df) ≠ (none : Option Df) := by
  refine ⟨rfl, ?_⟩
  intro h
  exact Option.noConfusion h

/-- C7 (amended): when the uploader yields a file, its raw bytes are cached
in session state and the dataset is parsed from those cached bytes with
column names trimmed of surrounding whitespace; when the uploader yields no
file, cached bytes are ignored and the dataset is the default-path one if
it exists. -/
theorem C7_amended_data_source :
    (∀ (parse : Bytes → Df) (b : Bytes) (d : Option Df) (cached : Option Bytes),
      dataSource parse (some b) d cached = (some (trimDfCols (parse b)), some b)) ∧
    (∀ (parse : Bytes → Df) (d : Option Df) (cached : Option Bytes),
      dataSource parse none d cached = (d, cached)) ∧
    ∀ df : Df, (trimDfCols df).cols = df.cols.map pyStrip :=
  ⟨fun _ _ _ _ => rfl, fun _ _ _ => rfl, fun _ => rfl⟩

/-- C8: with no dataset from either source the page halts on a non-fatal
warning; with a dataset lacking `patient_id` it halts on a page-fatal
error; in both halting cases nothing further on the page runs (session
state is untouched), and with `patient_id` present the page proceeds.
Halts are values of `PageHalt`, never a process crash. -/
theorem C8_availability_halts :
    (∀ (fc nc cc : List String) (sel : String) (submit : Bool) (ss : SState),
      patientInputPage fc nc cc none sel submit ss = (some .warnNoData, ss)) ∧
    (∀ (fc nc cc : List String) (df : Df) (sel : String) (submit : Bool)
        (ss : SState), "patient_id" ∉ df.cols →
      patientInputPage fc nc cc (some df) sel submit ss =
        (some .errNoPatientId, ss)) ∧
    (∀ (fc nc cc : List String) (df : Df) (sel : String) (submit : Bool)
        (ss : SState), "patient_id" ∈ df.cols →
      (patientInputPage fc nc cc (some df) sel submit ss).1 = none) := by
  refine ⟨fun _ _ _ _ _ _ => rfl, ?_, ?_⟩
  · intro fc nc cc df sel submit ss h
    simp [patientInputPage, h]
  · intro fc nc cc df sel submit ss h
    simp [patientInputPage, h]

theorem C8_availability_halts_witness :
    patientInputPage sampleFc sampleNc sampleCc (some c7Df) "(none)" false
        sampleSsPrior =
      (some .errNoPatientId, sampleSsPrior) :=
  C8_availability_halts.2.1 sampleFc sampleNc sampleCc c7Df "(none)" false
    sampleSsPrior (by decide)

/-- C9: a run that reaches the persistence point without submitting stores
the auto-fill base record of the current selection as `patient_record`,
for every prior session state (so a previously saved merged record is
replaced); selecting "(none)" stores the all-absent record. -/
theorem C9_record_overwrite :
    ∀ (fc nc cc : List String) (df : Df) (sel : String) (ss : SState),
      (sel = "(none)" ∨ (df.rows.find? (matchesSel sel)).isSome = true) →
      (pageRun fc nc cc df sel false ss).patientRecord = pageBase fc df sel ∧
      (sel = "(none)" →
        (pageRun fc nc cc df sel false ss).patientRecord = dictOfNone fc) := by
  intro fc nc cc df sel ss _
  refine ⟨pageRun_record_nosubmit fc nc cc df sel ss, ?_⟩
  intro h
  rw [pageRun_record_nosubmit]
  unfold pageBase
  rw [if_pos h]

theorem C9_record_overwrite_witness :
    (pageRun sampleFc sampleNc sampleCc sampleDf "(none)" false
        sampleSsPrior).patientRecord =
      pageBase sampleFc sampleDf "(none)" ∧
    ("(none)" = "(none)" →
      (pageRun sampleFc sampleNc sampleCc sampleDf "(none)" false
          sampleSsPrior).patientRecord =
        dictOfNone sampleFc) :=
  C9_record_overwrite sampleFc sampleNc sampleCc sampleDf "(none)" sampleSsPrior
    (Or.inl rfl)

/-- C2: every declared feature name is a key of every patient record the
page stores (the auto-filled record and the merged submitted record alike),
and a widget never contributes an empty string to the record — blank or
unknown input is stored as absent. -/
theorem C2_schema_complete :
    (∀ (fc nc cc : List String) (df : Df) (sel : String) (submit : Bool)
        (ss : SState) (c : String), c ∈ fc →
      dcontains (pageRun fc nc cc df sel submit ss).patientRecord c = true) ∧
    (∀ (df : Df) (cc nc : List String) (w : List (String × String))
        (col : String),
      ¬widgetValue w nc (build_levels_from_df df cc) col = .vStr "") := by
  constructor
  · intro fc nc cc df sel submit ss c hc
    cases submit with
    | false =>
      rw [pageRun_record_nosubmit]
      exact dcontains_pageBase fc df sel c hc
    | true =>
      by_cases hg : sel ≠ "(none)" ∧ ss.activePatientId ≠ some sel
      · rw [pageRun_record_submit_seeded fc nc cc df sel ss hg]
        exact dcontains_submitMerge _ _ fc c hc (dcontains_pageBase fc df sel c hc)
      · rw [pageRun_record_submit_noseed fc nc cc df sel ss hg]
        exact dcontains_submitMerge _ _ fc c hc (dcontains_pageBase fc df sel c hc)
  · intro df cc nc w col
    unfold widgetValue
    by_cases hnc : col ∈ nc
    · rw [if_pos hnc]
      cases hp : parse_numeric (ssGetD w (wkey col) "") with
      | some v => exact fun he => parse_numeric_not_vStr _ v hp "" he
      | none => exact fun he => Value.noConfusion he
    · rw [if_neg hnc]
      by_cases hcat : (levelsOf (build_levels_from_df df cc) col).length > 0
      · rw [if_pos hcat]
        have hlvne : levelsOf (build_levels_from_df df cc) col ≠ [] :=
          List.length_pos.mp hcat
        have hlveq : levelsOf (build_levels_from_df df cc) col =
            clean_levels (dropna (colValues df col)) := by
          rcases (em (col ∈ cc ∧ col ∈ df.cols)) with hocc | hocc
          · rw [levelsOf_buildLevels, if_pos hocc]
          · exact absurd (by rw [levelsOf_buildLevels, if_neg hocc]) hlvne
        by_cases hpb : widgetPick w (build_levels_from_df df cc) col =
            LEAVE_BLANK_LABEL
        · rw [if_pos hpb]
          exact fun he => Value.noConfusion he
        · rw [if_neg hpb]
          intro he
          have hpe : widgetPick w (build_levels_from_df df cc) col = "" :=
            Value.vStr.inj he
          have hpick : widgetPick w (build_levels_from_df df cc) col ∈
              LEAVE_BLANK_LABEL :: levelsOf (build_levels_from_df df cc) col := by
            unfold widgetPick
            by_cases hmem : ssGetD w (wkey col) LEAVE_BLANK_LABEL ∈
                LEAVE_BLANK_LABEL :: levelsOf (build_levels_from_df df cc) col
            · rw [if_pos hmem]
              exact hmem
            · rw [if_neg hmem]
              exact List.mem_cons_self _ _
          have hinlv : widgetPick w (build_levels_from_df df cc) col ∈
              levelsOf (build_levels_from_df df cc) col := by
            rcases List.mem_cons.mp hpick with hca | hcr
            · exact absurd hca hpb
            · exact hcr
          rw [hlveq] at hinlv
          exact mem_clean_levels_ne_empty _ _ hinlv hpe
      · rw [if_neg hcat]
        by_cases hb : pyStrip (ssGetD w (wkey col) "") = ""
        · rw [if_pos hb]
          exact fun he => Value.noConfusion he
        · rw [if_neg hb]
          exact fun he => hb (Value.vStr.inj he)

theorem C2_schema_complete_witness :
    dcontains (pageRun sampleFc sampleNc sampleCc sampleDf "P1" true
        sampleSs0).patientRecord "ethnicity" = true :=
  C2_schema_complete.1 sampleFc sampleNc sampleCc sampleDf "P1" true sampleSs0
    "ethnicity" (by decide)

/-- C10: for a categorical feature with a nonempty level set whose
auto-filled value (trimmed) is not among the blank sentinel plus the level
set, the widget is seeded with the blank sentinel, and submitting without
touching the field stores absent — the out-of-level-set dataset value is
silently dropped from the submitted record. -/
theorem C10_out_of_levels_dropped :
    ∀ (fc nc cc : List String) (df : Df) (sel col : String) (ss : SState),
      sel ≠ "(none)" →
      (df.rows.find? (matchesSel sel)).isSome = true →
      ss.activePatientId ≠ some sel →
      col ∈ renderedCols fc →
      col ∉ nc →
      levelsOf (build_levels_from_df df cc) col ≠ [] →
      is_missing (recGetD (pageBase fc df sel) col) = false →
      pyStrip (valueToText (recGetD (pageBase fc df sel) col)) ∉
        LEAVE_BLANK_LABEL :: levelsOf (build_levels_from_df df cc) col →
      seedValue (pageBase fc df sel) nc (build_levels_from_df df cc) col =
          LEAVE_BLANK_LABEL ∧
        alookup
            (pageRun fc nc cc df sel true
              (pageRun fc nc cc df sel false ss)).patientRecord col =
          some .vNone := by
  intro fc nc cc df sel col ss hsel hmatch hfresh hrend hnc hlv hmiss hnot
  have hcond : col ∈ fc ∧ col ≠ "age_group" :=
    of_decide_eq_true (List.mem_filter.mp hrend).2
  have hlen : (levelsOf (build_levels_from_df df cc) col).length > 0 :=
    List.length_pos.mpr hlv
  have hseedv : seedValue (pageBase fc df sel) nc (build_levels_from_df df cc)
      col = LEAVE_BLANK_LABEL := by
    unfold seedValue
    rw [if_neg hnc, if_pos hlen,
      if_neg (fun hh : is_missing _ = true => Bool.noConfusion (hmiss ▸ hh)),
      if_neg hnot]
  refine ⟨hseedv, ?_⟩
  have hw1 : (pageRun fc nc cc df sel false ss).widgets =
      seed_widgets_from_patient (pageBase fc df sel) fc nc
        (build_levels_from_df df cc) ss.widgets :=
    pageRun_widgets_seed fc nc cc df sel false ss ⟨hsel, hfresh⟩
  have hact : (pageRun fc nc cc df sel false ss).activePatientId = some sel :=
    pageRun_active_seed fc nc cc df sel false ss ⟨hsel, hfresh⟩
  have hng : ¬(sel ≠ "(none)" ∧
      (pageRun fc nc cc df sel false ss).activePatientId ≠ some sel) :=
    fun hh => hh.2 hact
  rw [pageRun_record_submit_noseed fc nc cc df sel _ hng,
    alookup_submitMerge _ _ fc col hcond.2]
  have hlook : alookup (pageRun fc nc cc df sel false ss).widgets (wkey col) =
      some (seedValue (pageBase fc df sel) nc (build_levels_from_df df cc) col) := by
    rw [hw1, alookup_seed, if_pos ⟨hcond.1, hcond.2⟩]
  have hwv : widgetValue (pageRun fc nc cc df sel false ss).widgets nc
      (build_levels_from_df df cc) col = .vNone := by
    have hpick : widgetPick (pageRun fc nc cc df sel false ss).widgets
        (build_levels_from_df df cc) col = LEAVE_BLANK_LABEL := by
      unfold widgetPick ssGetD
      rw [hlook, hseedv]
      simp
    unfold widgetValue
    rw [if_neg hnc, if_pos hlen, if_pos hpick]
  have hupd : alookup
      (buildUpdated fc nc (build_levels_from_df df cc)
        (pageRun fc nc cc df sel false ss).widgets) col = some Value.vNone := by
    rw [alookup_buildUpdated, if_pos hrend, hwv]
  rw [if_pos ⟨hcond.1, by rw [dcontains, hupd]; rfl⟩]
  rw [recGetD, hupd]
  rfl

theorem C10_out_of_levels_dropped_witness :
    seedValue (pageBase sampleFc sampleDf "P1") sampleNc
        (build_levels_from_df sampleDf sampleCc) "ethnicity" =
      LEAVE_BLANK_LABEL ∧
    alookup
        (pageRun sampleFc sampleNc sampleCc sampleDf "P1" true
          (pageRun sampleFc sampleNc sampleCc sampleDf "P1" false
            sampleSs0)).patientRecord "ethnicity" =
      some .vNone :=
  C10_out_of_levels_dropped sampleFc sampleNc sampleCc sampleDf "P1" "ethnicity"
    sampleSs0 (by decide) (by decide) (by decide) (by decide) (by decide)
    (by decide) (by decide) (by decide)

/-- C6: widget-backing state is seeded from the loaded patient exactly on
the first run after the tracked active patient id differs from the
selection; on every run with the same selection no widget-backing key is
overwritten, so a field edited after selection keeps its edited value on
later runs (submitting or not). -/
theorem C6_seed_once :
    ∀ (fc nc cc : List String) (df : Df) (sel : String) (ss : SState),
      sel ≠ "(none)" →
      (df.rows.find? (matchesSel sel)).isSome = true →
      (ss.activePatientId ≠ some sel →
        (pageRun fc nc cc df sel false ss).widgets =
          seed_widgets_from_patient (pageBase fc df sel) fc nc
            (build_levels_from_df df cc) ss.widgets ∧
        (pageRun fc nc cc df sel false ss).activePatientId = some sel) ∧
      (ss.activePatientId = some sel →
        ∀ submit, (pageRun fc nc cc df sel submit ss).widgets = ss.widgets) ∧
      (ss.activePatientId ≠ some sel →
        ∀ (k x : String) (submit : Bool),
          (pageRun fc nc cc df sel submit
              { pageRun fc nc cc df sel false ss with
                  widgets :=
                    dinsert (pageRun fc nc cc df sel false ss).widgets k x }).widgets =
            dinsert (pageRun fc nc cc df sel false ss).widgets k x ∧
          alookup
              (pageRun fc nc cc df sel submit
                { pageRun fc nc cc df sel false ss with
                    widgets :=
                      dinsert (pageRun fc nc cc df sel false ss).widgets k x }).widgets
              k = some x) := by
  intro fc nc cc df sel ss hsel _
  refine ⟨?_, ?_, ?_⟩
  · intro hfresh
    exact ⟨pageRun_widgets_seed fc nc cc df sel false ss ⟨hsel, hfresh⟩,
      pageRun_active_seed fc nc cc df sel false ss ⟨hsel, hfresh⟩⟩
  · intro hsame submit
    exact pageRun_widgets_same fc nc cc df sel submit ss
      (fun hh => hh.2 (by rw [hsame]))
  · intro hfresh k x submit
    have hact : (pageRun fc nc cc df sel false ss).activePatientId = some sel :=
      pageRun_active_seed fc nc cc df sel false ss ⟨hsel, hfresh⟩
    have hng : ¬(sel ≠ "(none)" ∧
        ({ pageRun fc nc cc df sel false ss with
            widgets :=
              dinsert (pageRun fc nc cc df sel false ss).widgets k x} :
          SState).activePatientId ≠ some sel) :=
      fun hh => hh.2 hact
    have hw := pageRun_widgets_same fc nc cc df sel submit _ hng
    refine ⟨hw, ?_⟩
    rw [hw]
    show alookup (dinsert (pageRun fc nc cc df sel false ss).widgets k x) k =
      some x
    rw [alookup_dinsert, if_pos rfl]

theorem C6_seed_once_witness :
    (sampleSs0.activePatientId ≠ some "P1" →
      (pageRun sampleFc sampleNc sampleCc sampleDf "P1" false sampleSs0).widgets =
        seed_widgets_from_patient (pageBase sampleFc sampleDf "P1") sampleFc
          sampleNc (build_levels_from_df sampleDf sampleCc) sampleSs0.widgets ∧
      (pageRun sampleFc sampleNc sampleCc sampleDf "P1" false
          sampleSs0).activePatientId = some "P1") ∧
    (sampleSs0.activePatientId = some "P1" →
      ∀ submit, (pageRun sampleFc sampleNc sampleCc sampleDf "P1" submit
          sampleSs0).widgets = sampleSs0.widgets) ∧
    (sampleSs0.activePatientId ≠ some "P1" →
      ∀ (k x : String) (submit : Bool),
        (pageRun sampleFc sampleNc sampleCc sampleDf "P1" submit
            { pageRun sampleFc sampleNc sampleCc sampleDf "P1" false sampleSs0 with
                widgets :=
                  dinsert (pageRun sampleFc sampleNc sampleCc sampleDf "P1" false
                    sampleSs0).widgets k x }).widgets =
          dinsert (pageRun sampleFc sampleNc sampleCc sampleDf "P1" false
            sampleSs0).widgets k x ∧
        alookup
            (pageRun sampleFc sampleNc sampleCc sampleDf "P1" submit
              { pageRun sampleFc sampleNc sampleCc sampleDf "P1" false
                  sampleSs0 with
                  widgets :=
                    dinsert (pageRun sampleFc sampleNc sampleCc sampleDf "P1"
                      false sampleSs0).widgets k x }).widgets
            k = some x) :=
  C6_seed_once sampleFc sampleNc sampleCc sampleDf "P1" sampleSs0 (by decide)
    (by decide)

/-- A clean master dataset: P1's values all round-trip through their
widgets (age re-parses, gender and ethnicity are trimmed members of the
level sets). -/
def cleanDf : Df :=
  ⟨["patient_id", "age", "gender", "ethnicity"],
   [[("patient_id", .vStr "P1"), ("age", .vInt 70), ("gender", .vStr "Male"),
     ("ethnicity", .vStr "B")],
    [("patient_id", .vStr "P2"), ("gender", .vStr "Female"),
     ("ethnicity", .vStr "B")]]⟩

/-- C1 (counterexample): after auto-filling P1 (whose `ethnicity` is the
non-missing placeholder string "Not Known / Missing", not in the level
set), overriding only `gender` to "Female" and submitting stores absent for
`ethnicity`, while the auto-filled base record holds the placeholder — so
the saved record differs from the base at a field that was never manually
overridden, refuting the claim as stated. -/
theorem C1_merge_counterexample :
    alookup
        (pageRun sampleFc sampleNc sampleCc sampleDf "P1" true
          { pageRun sampleFc sampleNc sampleCc sampleDf "P1" false sampleSs0 with
              widgets :=
                dinsert (pageRun sampleFc sampleNc sampleCc sampleDf "P1" false
                  sampleSs0).widgets (wkey "gender") "Female" }).patientRecord
        "ethnicity" = some .vNone ∧
    alookup (pageBase sampleFc sampleDf "P1") "ethnicity" =
      some (.vStr "Not Known / Missing") ∧
    some Value.vNone ≠ some (Value.vStr "Not Known / Missing") :=
  ⟨by decide, by decide, by decide⟩

/-- C1 (amended): after auto-filling patient `sel`, overriding only
`gender` to "Female" and submitting stores a record that agrees with the
auto-filled base record on every declared feature other than `gender` and
`age_group`, stores `gender = "Female"`, and recomputes `age_group` from
the merged age — provided every rendered field other than `gender` reads
back from its seeded widget exactly its base value (fields skipped from
rendering always keep their base value). -/
theorem C1_merge_amended :
    ∀ (fc nc cc : List String) (df : Df) (sel : String)
      (ss run1 ssE run2 : SState),
      sel ≠ "(none)" →
      (df.rows.find? (matchesSel sel)).isSome = true →
      ss.activePatientId ≠ some sel →
      "gender" ∈ fc →
      "gender" ∉ nc →
      ((levelsOf (build_levels_from_df df cc) "gender").length > 0 →
        "Female" ∈ levelsOf (build_levels_from_df df cc) "gender") →
      run1 = pageRun fc nc cc df sel false ss →
      ssE = { run1 with widgets := dinsert run1.widgets (wkey "gender") "Female" } →
      run2 = pageRun fc nc cc df sel true ssE →
      (∀ col, col ∈ renderedCols fc → col ≠ "gender" →
        widgetValue run1.widgets nc (build_levels_from_df df cc) col =
          recGetD (pageBase fc df sel) col) →
      (∀ c, c ∈ fc → c ≠ "gender" → c ≠ "age_group" →
        alookup run2.patientRecord c = alookup (pageBase fc df sel) c) ∧
      alookup run2.patientRecord "gender" = some (.vStr "Female") ∧
      ("age_group" ∈ fc →
        alookup run2.patientRecord "age_group" =
          some (optStrToValue
            (derive_age_group (recGetD run2.patientRecord "age")))) := by
  intro fc nc cc df sel ss run1 ssE run2 hsel hmatch hfresh hgfc hgnc hfem hr1
    hssE hr2 hround
  subst hr1
  subst hssE
  subst hr2
  have hact : (pageRun fc nc cc df sel false ss).activePatientId = some sel :=
    pageRun_active_seed fc nc cc df sel false ss ⟨hsel, hfresh⟩
  have hng : ¬(sel ≠ "(none)" ∧
      ({ pageRun fc nc cc df sel false ss with
          widgets :=
            dinsert (pageRun fc nc cc df sel false ss).widgets (wkey "gender")
              "Female" } : SState).activePatientId ≠ some sel) :=
    fun hh => hh.2 hact
  have hrec := pageRun_record_submit_noseed fc nc cc df sel _ hng
  have hproj : ({ pageRun fc nc cc df sel false ss with
      widgets :=
        dinsert (pageRun fc nc cc df sel false ss).widgets (wkey "gender")
          "Female" } : SState).widgets =
      dinsert (pageRun fc nc cc df sel false ss).widgets (wkey "gender")
        "Female" := rfl
  rw [hproj] at hrec
  rw [hrec]
  have hupdg : alookup
      (buildUpdated fc nc (build_levels_from_df df cc)
        (dinsert (pageRun fc nc cc df sel false ss).widgets (wkey "gender")
          "Female")) "gender" = some (.vStr "Female") := by
    have hg_rend : "gender" ∈ renderedCols fc :=
      List.mem_filter.mpr ⟨by decide, decide_eq_true ⟨hgfc, by decide⟩⟩
    have hlookg : alookup
        (dinsert (pageRun fc nc cc df sel false ss).widgets (wkey "gender")
          "Female") (wkey "gender") = some "Female" := by
      rw [alookup_dinsert, if_pos rfl]
    have hwg : widgetValue
        (dinsert (pageRun fc nc cc df sel false ss).widgets (wkey "gender")
          "Female") nc (build_levels_from_df df cc) "gender" =
        .vStr "Female" := by
      unfold widgetValue
      rw [if_neg hgnc]
      by_cases hcat : (levelsOf (build_levels_from_df df cc) "gender").length > 0
      · rw [if_pos hcat]
        have hpick : widgetPick
            (dinsert (pageRun fc nc cc df sel false ss).widgets (wkey "gender")
              "Female") (build_levels_from_df df cc) "gender" = "Female" := by
          unfold widgetPick ssGetD
          rw [hlookg]
          simp only [Option.getD_some]
          rw [if_pos (List.mem_cons_of_mem _ (hfem hcat))]
        rw [if_neg (by rw [hpick]; decide), hpick]
      · rw [if_neg hcat]
        unfold ssGetD
        rw [hlookg]
        simp only [Option.getD_some]
        rw [if_neg (by decide)]
        decide
    rw [alookup_buildUpdated, if_pos hg_rend, hwg]
  refine ⟨?_, ?_, ?_⟩
  · intro c hc hcg hcag
    rw [alookup_submitMerge _ _ fc c hcag]
    have hbc : dcontains (pageBase fc df sel) c = true :=
      dcontains_pageBase fc df sel c hc
    by_cases hr : c ∈ renderedCols fc
    · have hwc : widgetValue
          (dinsert (pageRun fc nc cc df sel false ss).widgets (wkey "gender")
            "Female") nc (build_levels_from_df df cc) c =
          widgetValue (pageRun fc nc cc df sel false ss).widgets nc
            (build_levels_from_df df cc) c := by
        refine widgetValue_congr _ _ _ _ _ ?_
        rw [alookup_dinsert,
          if_neg (fun e => hcg ((wkey_inj "gender" c e).symm))]
      have hupd : alookup
          (buildUpdated fc nc (build_levels_from_df df cc)
            (dinsert (pageRun fc nc cc df sel false ss).widgets (wkey "gender")
              "Female")) c = some (recGetD (pageBase fc df sel) c) := by
        rw [alookup_buildUpdated, if_pos hr, hwc, hround c hr hcg]
      rw [if_pos ⟨hc, by rw [dcontains, hupd]; rfl⟩, recGetD, hupd]
      unfold dcontains at hbc
      cases hb : alookup (pageBase fc df sel) c with
      | none =>
        rw [hb] at hbc
        exact absurd hbc (by decide)
      | some wv => rw [Option.getD_some, recGetD, hb, Option.getD_some]
    · have hupd : alookup
          (buildUpdated fc nc (build_levels_from_df df cc)
            (dinsert (pageRun fc nc cc df sel false ss).widgets (wkey "gender")
              "Female")) c = none := by
        rw [alookup_buildUpdated, if_neg hr]
      rw [if_neg (fun hh => by
        rw [dcontains, hupd] at hh
        exact Bool.noConfusion hh.2)]
      unfold dcontains at hbc
      rw [if_pos hbc]
  · rw [alookup_submitMerge _ _ fc "gender" (by decide),
      if_pos ⟨hgfc, by rw [dcontains, hupdg]; rfl⟩, recGetD, hupdg]
    rfl
  · intro hag
    exact alookup_submitMerge_age_group _ _ fc hag

theorem C1_merge_amended_witness :
    alookup
        (pageRun sampleFc sampleNc sampleCc cleanDf "P1" true
          { pageRun sampleFc sampleNc sampleCc cleanDf "P1" false sampleSs0 with
              widgets :=
                dinsert (pageRun sampleFc sampleNc sampleCc cleanDf "P1" false
                  sampleSs0).widgets (wkey "gender") "Female" }).patientRecord
        "ethnicity" =
      alookup (pageBase sampleFc cleanDf "P1") "ethnicity" ∧
    alookup
        (pageRun sampleFc sampleNc sampleCc cleanDf "P1" true
          { pageRun sampleFc sampleNc sampleCc cleanDf "P1" false sampleSs0 with
              widgets :=
                dinsert (pageRun sampleFc sampleNc sampleCc cleanDf "P1" false
                  sampleSs0).widgets (wkey "gender") "Female" }).patientRecord
        "gender" = some (.vStr "Female") :=
  have h := C1_merge_amended sampleFc sampleNc sampleCc cleanDf "P1" sampleSs0
    _ _ _ (by decide) (by decide) (by decide) (by decide) (by decide)
    (by decide) rfl rfl rfl (by decide)
  ⟨h.1 "ethnicity" (by decide) (by decide) (by decide), h.2.1⟩

end VERO
